import Mathlib

/-!
# Verification of the msbapi movie-ingestion pipeline

Shallow embedding of `packages/edge-functions/supabase/functions/movies/index.ts`
together with the storage-layer constraints of
`docs/database/migrations/20240915_120000_initial_schema.sql`
(plus the TMDB columns documented in `docs/database/schema.md`).

JavaScript strings are modelled as `List Char` / `String`; machine numbers that
the code manipulates (ratings parsed by `parseFloat`) are modelled as `Rat`;
nullable JavaScript values are `Option`; thrown exceptions are `Except String`.
The Supabase/PostgreSQL store is a `DB` value threaded explicitly; external
I/O (the TMDB HTTP API, and whether a row update succeeds) is an explicit
oracle `Env`.
-/

deriving instance DecidableEq for Except

namespace Msbapi

/-! ## JavaScript character classes

`jsSpace` is the set matched by the regex class `\s` (and removed by
`String.prototype.trim`): ASCII whitespace, NBSP, the Unicode `Zs` spaces,
the line/paragraph separators and the BOM.  `jsDotChar` is the set matched
by `.` in a regex without the `s` flag: everything except line terminators. -/

def jsSpace (c : Char) : Bool :=
  c = ' ' || c = '\t' || c = '\n' || c = Char.ofNat 0xb || c = Char.ofNat 0xc ||
  c = '\r' || c = Char.ofNat 0xa0 || c = Char.ofNat 0x1680 ||
  (Char.ofNat 0x2000 ≤ c && c ≤ Char.ofNat 0x200a) ||
  c = Char.ofNat 0x2028 || c = Char.ofNat 0x2029 || c = Char.ofNat 0x202f ||
  c = Char.ofNat 0x205f || c = Char.ofNat 0x3000 || c = Char.ofNat 0xfeff

def jsDotChar (c : Char) : Bool :=
  c ≠ '\n' && c ≠ '\r' && c ≠ Char.ofNat 0x2028 && c ≠ Char.ofNat 0x2029

def isDigit (c : Char) : Bool := '0' ≤ c && c ≤ '9'

def digitVal (c : Char) : Nat := c.toNat - '0'.toNat

/-- JS `String.prototype.trim`: strip `jsSpace` characters from both ends. -/
def jsTrim (cs : List Char) : List Char :=
  ((cs.dropWhile jsSpace).reverse.dropWhile jsSpace).reverse

def jsTrimS (s : String) : String := String.mk (jsTrim s.data)

/-! ## Exact decimal numbers

Every rating value the pipeline manipulates is a non-negative decimal
number: a star-count (a small natural), the result of `parseFloat` on a
string matching `\d+(\.\d+)?`, or the `DECIMAL(3,1)` column value.  The JSON
round-trip from the edge function to PostgreSQL preserves the decimal
literal, and the only operations ever applied are comparisons against 0 and
10 and the cast to `DECIMAL(3,1)` (round to one fractional digit, overflow
beyond precision 3).  We therefore model these numbers exactly as
`mantissa / 10 ^ scale` with natural-number components, which (unlike `Rat`
in this toolchain) the kernel can evaluate. -/

structure Dec where
  m : Nat
  e : Nat
  deriving Repr, DecidableEq

namespace Dec

def ofNat (n : Nat) : Dec := ⟨n, 0⟩

/-- Value comparison `a ≤ b` ⇔ `a.m / 10^a.e ≤ b.m / 10^b.e`. -/
def le (a b : Dec) : Bool := a.m * 10 ^ b.e ≤ b.m * 10 ^ a.e

def lt (a b : Dec) : Bool := a.m * 10 ^ b.e < b.m * 10 ^ a.e

/-- Round to one fractional digit, half away from zero (the PostgreSQL
`numeric` rounding rule; all our values are non-negative, so this is
half-up).  The result always has scale 1. -/
def pgRound1 (d : Dec) : Dec :=
  match d.e with
  | 0 => ⟨d.m * 10, 1⟩
  | Nat.succ e' => ⟨(2 * d.m + 10 ^ e') / (2 * 10 ^ e'), 1⟩

end Dec

/-! ## Letterboxd title parsing

Embedding of `index.ts` lines 508–516:

```
const titleMatch = title.match(/^(.+?),\s*(\d{4})/)
if (titleMatch) {
  movieData.title = titleMatch[1].trim()
  movieData.year = parseInt(titleMatch[2])
} else {
  movieData.title = title
}
```

The regex is anchored, the group `(.+?)` is lazy (shortest prefix first) and
`.` excludes line terminators; `\s*` is immediately followed by `\d{4}`, and
since no digit is whitespace the greedy `\s*` run is forced to be maximal, so
the whole match is deterministic: the *first* position `i ≥ 1` such that all
characters before `i` are dot-characters, the character at `i` is a comma and
the comma is followed by optional whitespace and four digits. -/

/-- Pattern `\s*(\d{4})` : skip whitespace, then read exactly four digits
(`\d{4}` happily matches the first four digits of a longer digit run). -/
def lbYearAfter (cs : List Char) : Option Nat :=
  match cs.dropWhile jsSpace with
  | d1 :: d2 :: d3 :: d4 :: _ =>
    if isDigit d1 && isDigit d2 && isDigit d3 && isDigit d4 then
      some (digitVal d1 * 1000 + digitVal d2 * 100 + digitVal d3 * 10 + digitVal d4)
    else none
  | _ => none

/-- The backtracking scan of `^(.+?),\s*(\d{4})`: `acc` holds the (reversed)
prefix consumed by the lazy group so far. -/
def lbTitleScan : List Char → List Char → Option (List Char × Nat)
  | _, [] => none
  | acc, c :: rest =>
    if acc ≠ [] && c = ',' && (lbYearAfter rest).isSome then
      match lbYearAfter rest with
      | some y => some (acc.reverse, y)
      | none => none
    else if jsDotChar c then lbTitleScan (c :: acc) rest
    else none

/-- Lines 508–516 as a function from the raw feed title to `(title, year)`. -/
def letterboxdTitleParse (title : String) : String × Option Int :=
  match lbTitleScan [] title.data with
  | some (pre, y) => (String.mk (jsTrim pre), some (y : Int))
  | none => (title, none)

/-- No index `i ≥ 1` inside `p` is a comma followed (within
`p ++ ',' :: rest`) by optional whitespace and four digits — i.e. the comma
after `p` really is the *first* comma-year split of `p ++ ',' :: rest`. -/
def noEarlierCommaYear (p rest : List Char) : Bool :=
  (List.range p.length).all fun i =>
    i = 0 || ¬ (p.getD i ' ' = ',') || (lbYearAfter (p.drop (i + 1) ++ ',' :: rest)).isNone

/-- No position of `cs` is a comma followed by optional whitespace and four
digits. -/
def noCommaYearSplit (cs : List Char) : Bool :=
  (List.range cs.length).all fun i =>
    ¬ (cs.getD i ' ' = ',') || (lbYearAfter (cs.drop (i + 1))).isNone

/-! ## Letterboxd star-rating extraction

Embedding of `index.ts` lines 518–524:

```
const ratingMatch = content.match(/â˜…+/)
if (ratingMatch) {
  movieData.rating = ratingMatch[0].length
}
```

The regex literal in the committed source file is the byte sequence
`C3 A2 CB 9C E2 80 A6 2B`, i.e. the three characters U+00E2, U+02DC, U+2026
followed by `+` — the Windows-1252 mojibake of the UTF-8 encoding of the star
glyph `★` (U+2605).  As written, the pattern therefore matches the literal
characters `â` `˜` followed by one or more `…`; the quantifier applies only
to the final `…`.  The match length is `2 + k` where `k` is the length of the
maximal `…` run after the first such occurrence. -/

def mojiHatA : Char := Char.ofNat 0xe2

def mojiTilde : Char := Char.ofNat 0x2dc

def mojiEllipsis : Char := Char.ofNat 0x2026

/-- The star glyph `★` (U+2605) the specification speaks about. -/
def starGlyph : Char := Char.ofNat 0x2605

/-- Leftmost match of the source's regex `/â˜…+/`; returns `match[0].length`. -/
def starMatchLen : List Char → Option Nat
  | [] => none
  | a :: rest =>
    if a = mojiHatA then
      match rest with
      | b :: rest2 =>
        if b = mojiTilde then
          if 1 ≤ (rest2.takeWhile (· = mojiEllipsis)).length then
            some (2 + (rest2.takeWhile (· = mojiEllipsis)).length)
          else starMatchLen rest
        else starMatchLen rest
      | [] => none
    else starMatchLen rest

/-- The rating value the Letterboxd extractor derives from the content body. -/
def letterboxdRatingOf (content : String) : Option Dec :=
  (starMatchLen content.data).map Dec.ofNat

/-! ## Markup stripping

`content.replace(/<[^>]*>/g, '')`: every leftmost occurrence of `<`
followed by a (possibly empty) run of non-`>` characters and a closing `>`
is deleted; a `<` with no subsequent `>` stays. -/

/-- Drop everything up to and including the first `>`, if any. -/
def dropThroughGt : List Char → Option (List Char)
  | [] => none
  | c :: rest => if c = '>' then some rest else dropThroughGt rest

/-- Fuelled worker (`dropThroughGt` yields a strict suffix, so fuel equal to
the list length is always enough; structural recursion keeps the function
kernel-evaluable). -/
def stripTagsGo : Nat → List Char → List Char
  | 0, _ => []
  | _ + 1, [] => []
  | fuel + 1, c :: rest =>
    if c = '<' then
      match dropThroughGt rest with
      | some after => stripTagsGo fuel after
      | none => c :: stripTagsGo fuel rest
    else c :: stripTagsGo fuel rest

def stripTags (cs : List Char) : List Char := stripTagsGo cs.length cs

/-- Embeds `content.replace(/<[^>]*>/g, '').trim()`. -/
def stripAndTrim (s : String) : String := String.mk (jsTrim (stripTags s.data))

/-! ## Trakt parsing

Title regex (line 542): `/^(.+?)\s*[\(,]\s*(\d{4})[\)]?/` — lazy prefix of
dot-characters, then maximal whitespace (forced maximal because `(` and `,`
are not whitespace), a `(` or `,`, optional whitespace and four digits. -/

def traktSepAfter (cs : List Char) : Option Nat :=
  match cs.dropWhile jsSpace with
  | c :: rest => if c = '(' || c = ',' then lbYearAfter rest else none
  | [] => none

def traktTitleScan : List Char → List Char → Option (List Char × Nat)
  | _, [] => none
  | acc, c :: rest =>
    if acc ≠ [] && (traktSepAfter (c :: rest)).isSome then
      match traktSepAfter (c :: rest) with
      | some y => some (acc.reverse, y)
      | none => none
    else if jsDotChar c then traktTitleScan (c :: acc) rest
    else none

/-- Lines 540–549: parse `"Title (Year)"` / `"Title, Year"`, falling back to
`title.trim()` when the regex does not match. -/
def traktTitleParse (title : String) : String × Option Int :=
  match traktTitleScan [] title.data with
  | some (pre, y) => (String.mk (jsTrim pre), some (y : Int))
  | none => (jsTrimS title, none)

/-! Rating regex (line 555): `/(\d+(?:\.\d+)?)\s*\/\s*10/`.
At a given start position the match is deterministic: a maximal digit run,
optionally `.` plus a maximal digit run, then whitespace, `/`, whitespace
and the literal `10` (backtracking inside the numeric part always fails
because shortening a digit run leaves a digit where `/` or `.` is needed). -/

def slash10After (cs : List Char) : Bool :=
  match (cs.dropWhile jsSpace) with
  | '/' :: rest =>
    match rest.dropWhile jsSpace with
    | '1' :: '0' :: _ => true
    | _ => false
  | _ => false

/-- Numeric value of a digit run read most-significant first. -/
def digitsVal (ds : List Char) : Nat := ds.foldl (fun acc c => acc * 10 + digitVal c) 0

/-- Try the rating pattern at the current position; `parseFloat(match[1])`. -/
def traktRatingAt (cs : List Char) : Option Dec :=
  let intPart := cs.takeWhile isDigit
  if intPart.isEmpty then none
  else
    let afterInt := cs.dropWhile isDigit
    match afterInt with
    | '.' :: ds =>
      let fracPart := ds.takeWhile isDigit
      if fracPart.isEmpty then
        -- `(?:\.\d+)?` cannot take the bare dot; the dot then fails `\s*\/`
        none
      else if slash10After (ds.dropWhile isDigit) then
        some ⟨digitsVal intPart * 10 ^ fracPart.length + digitsVal fracPart, fracPart.length⟩
      else none
    | _ => if slash10After afterInt then some (Dec.ofNat (digitsVal intPart)) else none

def traktRatingScan : List Char → Option Dec
  | [] => none
  | c :: rest =>
    match traktRatingAt (c :: rest) with
    | some r => some r
    | none => traktRatingScan rest

def traktRatingOf (content : String) : Option Dec := traktRatingScan content.data

/-! ## Generic parsing

Line 585: `title.match(/\((\d{4})\)/)` and
line 588: `title.replace(/\s*\(\d{4}\)/, '')` (first occurrence only). -/

def parenYearAt (cs : List Char) : Option Nat :=
  match cs with
  | '(' :: d1 :: d2 :: d3 :: d4 :: ')' :: _ =>
    if isDigit d1 && isDigit d2 && isDigit d3 && isDigit d4 then
      some (digitVal d1 * 1000 + digitVal d2 * 100 + digitVal d3 * 10 + digitVal d4)
    else none
  | _ => none

def parenYearScan : List Char → Option Nat
  | [] => none
  | c :: rest =>
    match parenYearAt (c :: rest) with
    | some y => some y
    | none => parenYearScan rest

/-- Does `\s*\(\d{4}\)` match exactly here?  Returns the remainder after the
match.  The `\s*` is forced maximal because `(` is not whitespace. -/
def wsParenYearAt (cs : List Char) : Option (List Char) :=
  match cs.dropWhile jsSpace with
  | '(' :: d1 :: d2 :: d3 :: d4 :: ')' :: rest =>
    if isDigit d1 && isDigit d2 && isDigit d3 && isDigit d4 then some rest else none
  | _ => none

/-- Embeds `title.replace(/\s*\(\d{4}\)/, '')`: remove the first match. -/
def removeFirstParenYear (cs : List Char) : List Char :=
  match cs with
  | [] => []
  | c :: rest =>
    match wsParenYearAt (c :: rest) with
    | some after => after
    | none => c :: removeFirstParenYear rest

/-! ## Link / id scans -/

/-- JS `haystack.includes(needle)`. -/
def containsSub (s sub : List Char) : Bool :=
  (List.range (s.length + 1)).any (fun i => sub.isPrefixOf (s.drop i))

def strIncludes (s sub : String) : Bool := containsSub s.data sub.data

/-- Match `[^\/]+` (maximal, must be non-empty). -/
def seg (cs : List Char) : List Char := cs.takeWhile (· ≠ '/')

/-- Try `letterboxd\.com\/[^\/]+\/film\/([^\/]+)` at this position. -/
def lbLinkAt (cs : List Char) : Option String :=
  if ("letterboxd.com/".data).isPrefixOf cs then
    let rest := cs.drop "letterboxd.com/".length
    let user := seg rest
    if user.isEmpty then none
    else
      let rest2 := rest.drop user.length
      if ("/film/".data).isPrefixOf rest2 then
        let film := seg (rest2.drop "/film/".length)
        if film.isEmpty then none else some (String.mk film)
      else none
  else none

def lbLinkScan : List Char → Option String
  | [] => none
  | c :: rest =>
    match lbLinkAt (c :: rest) with
    | some s => some s
    | none => lbLinkScan rest

/-- Line 526: `link.match(/letterboxd\.com\/[^\/]+\/film\/([^\/]+)/)`. -/
def letterboxdIdOf (link : String) : Option String := lbLinkScan link.data

/-- Try `trakt\.tv\/movies\/([^\/]+)` at this position. -/
def traktLinkAt (cs : List Char) : Option String :=
  if ("trakt.tv/movies/".data).isPrefixOf cs then
    let m := seg (cs.drop "trakt.tv/movies/".length)
    if m.isEmpty then none else some (String.mk m)
  else none

def traktLinkScan : List Char → Option String
  | [] => none
  | c :: rest =>
    match traktLinkAt (c :: rest) with
    | some s => some s
    | none => traktLinkScan rest

/-- Line 565: `link.match(/trakt\.tv\/movies\/([^\/]+)/)`. -/
def traktIdOfLink (link : String) : Option String := traktLinkScan link.data

/-- Try `tag:trakt\.tv,\d+:Movie\/(\d+)\/` at this position. -/
def traktTagAt (cs : List Char) : Option String :=
  if ("tag:trakt.tv,".data).isPrefixOf cs then
    let rest := cs.drop "tag:trakt.tv,".length
    let ds := rest.takeWhile isDigit
    if ds.isEmpty then none
    else
      let rest2 := rest.drop ds.length
      if (":Movie/".data).isPrefixOf rest2 then
        let ds2 := (rest2.drop ":Movie/".length).takeWhile isDigit
        if ds2.isEmpty then none
        else if (rest2.drop (":Movie/".length + ds2.length)).head? = some '/' then
          some (String.mk ds2)
        else none
      else none
  else none

def traktTagScan : List Char → Option String
  | [] => none
  | c :: rest =>
    match traktTagAt (c :: rest) with
    | some s => some s
    | none => traktTagScan rest

/-- Line 469: `id.match(/tag:trakt\.tv,\d+:Movie\/(\d+)\//)`. -/
def traktIdOfGuid (id : String) : Option String := traktTagScan id.data

/-! ## JavaScript truthiness -/

/-- Truthiness of a nullable string: `undefined`/`null` and `""` are falsy. -/
def truthyS : Option String → Bool
  | some s => s ≠ ""
  | none => false

/-- Truthiness of a nullable integer: `undefined`/`null` and `0` are falsy. -/
def truthyI : Option Int → Bool
  | some i => i ≠ 0
  | none => false

/-- JS `a || b` on nullable strings. -/
def jsOrS (a b : Option String) : Option String := if truthyS a then a else b

/-- Did the call succeed (no exception)? -/
def exOk {α : Type} : Except String α → Bool
  | .ok _ => true
  | .error _ => false

/-! ## Data model

`FeedItem` is the webhook feed item (all fields optional — `undefined`
destructures to `none`).  `Payload` is the webhook body: either a nested
`item` or the very same object used directly. -/

structure FeedItem where
  id : Option String := none
  title : Option String := none
  trakt_id : Option String := none
  content : Option String := none
  summary : Option String := none
  link : Option String := none
  guid : Option String := none
  pubDate : Option String := none
  date : Option String := none
  deriving Repr, DecidableEq

structure Payload extends FeedItem where
  item : Option FeedItem := none
  deriving Repr, DecidableEq

structure ExternalIds where
  letterboxd_id : Option String := none
  trakt_id : Option String := none
  deriving Repr, DecidableEq

/-- The normalized draft produced by `extractMovieData` (lines 447–457). -/
structure MovieDraft where
  title : Option String := none
  year : Option Int := none
  director : Option String := none
  rating : Option Dec := none
  review : Option String := none
  source : String := "unknown"
  sourceUrl : Option String := none
  watchedAt : String := ""
  externalIds : ExternalIds := {}
  deriving Repr, DecidableEq

/-- A row of the `movies` table (initial schema plus the TMDB columns of
`docs/database/schema.md`).  Surrogate ids are modelled as naturals handed
out by a counter. -/
structure MovieRow where
  id : Nat
  title : Option String := none
  year : Option Int := none
  director : Option String := none
  letterboxd_id : Option String := none
  trakt_id : Option String := none
  poster_url : Option String := none
  backdrop_url : Option String := none
  tmdb_id : Option String := none
  plot_summary : Option String := none
  country : Option String := none
  language : Option String := none
  budget : Option Int := none
  box_office : Option Int := none
  genres : Option (List String) := none
  trailer_url : Option String := none
  deriving Repr, DecidableEq

/-- A row of the `movie_watches` table. -/
structure WatchRow where
  id : Nat
  movie_id : Nat
  watched_at : String
  personal_rating : Option Dec := none
  review_text : Option String := none
  source : String
  source_url : Option String := none
  external_id : Option String := none
  meta_feed_title : Option String := none
  meta_feed_content : Option String := none
  processed_at : String := ""
  deriving Repr, DecidableEq

structure DB where
  movies : List MovieRow := []
  watches : List WatchRow := []
  nextMovieId : Nat := 0
  nextWatchId : Nat := 0
  deriving Repr, DecidableEq

/-! ## TMDB service model

The HTTP calls of `tmdbRequest` are an oracle: `searchResults q y = none`
models a fetch error or non-OK status (`tmdbRequest` returns `null`),
`some rs` a parsed result list.  `details` likewise models
`GET /movie/{id}`.  `updateOk` tells whether a given `movies` UPDATE
succeeds (the storage layer may fail it for any reason). -/

structure TmdbVideo where
  vtype : String
  site : String
  key : String
  deriving Repr, DecidableEq

structure TmdbMovie where
  id : Int
  title : Option String := none
  release_date : Option String := none
  poster_path : Option String := none
  backdrop_path : Option String := none
  overview : Option String := none
  production_countries : List String := []
  original_language : Option String := none
  budget : Option Int := none
  revenue : Option Int := none
  genres : Option (List String) := none
  credits_crew : Option (List (String × String)) := none
  videos : Option (List TmdbVideo) := none
  deriving Repr, DecidableEq

structure Env where
  /-- Whether `TMDB_API_KEY` is set. -/
  tmdbKey : Bool
  /-- Response to `/search/movie` given the `query` and `year` params
  (`none` when the param was not appended because the value was falsy). -/
  searchResults : Option String → Option Int → Option (List TmdbMovie)
  /-- Response to `/movie/{id}`. -/
  details : Int → Option TmdbMovie
  /-- Whether the `movies` UPDATE for a given row id and payload succeeds. -/
  updateOk : Nat → Bool
  /-- Value of `new Date().toISOString()`. -/
  now : String

/-- The partial field map returned by `extractTMDBData` (lines 204–248);
`none` means the key is absent from the object. -/
structure TmdbData where
  poster_url : Option String := none
  backdrop_url : Option String := none
  tmdb_id : Option String := none
  plot_summary : Option String := none
  country : Option String := none
  language : Option String := none
  budget : Option Int := none
  box_office : Option Int := none
  director : Option String := none
  genres : Option (List String) := none
  trailer_url : Option String := none
  deriving Repr, DecidableEq

namespace TmdbData

/-- Whether `Object.keys(tmdbData).length === 0` (null and empty values were filtered). -/
def isEmpty (t : TmdbData) : Bool :=
  t.poster_url = none && t.backdrop_url = none && t.tmdb_id = none &&
  t.plot_summary = none && t.country = none && t.language = none &&
  t.budget = none && t.box_office = none && t.director = none &&
  t.genres = none && t.trailer_url = none

end TmdbData

/-- Drop the empty string (the `value !== ''` part of the filter at
line 243, and the `|| null` defaults at lines 212–214). -/
def strFilter : Option String → Option String
  | some s => if s = "" then none else some s
  | none => none

/-- JS `data.budget || null`: zero is falsy. -/
def intFilter : Option Int → Option Int
  | some i => if i = 0 then none else some i
  | none => none

/-- Year of `new Date(release_date).getFullYear()` on a TMDB ISO date `YYYY-MM-DD`;
an unparseable date gives `NaN`, which compares unequal to every year. -/
def jsDateYear (s : String) : Option Int :=
  match s.data with
  | d1 :: d2 :: d3 :: d4 :: _ =>
    if isDigit d1 && isDigit d2 && isDigit d3 && isDigit d4 then
      some ((digitVal d1 * 1000 + digitVal d2 * 100 + digitVal d3 * 10 + digitVal d4 : Nat) : Int)
    else none
  | _ => none

def releaseYearOf (m : TmdbMovie) : Option Int :=
  match m.release_date with
  | some s => if s = "" then none else jsDateYear s
  | none => none

/-- The `year`/`primary_release_year` param is appended only when `year` is
truthy (lines 157–161). -/
def yearParam (year : Option Int) : Option Int :=
  if truthyI year then year else none

/-- Embeds `searchTMDBMovie` (lines 156–184). -/
def searchTMDBMovie (env : Env) (title : Option String) (year : Option Int) :
    Option TmdbMovie :=
  if ¬ env.tmdbKey then none
  else
    match env.searchResults title (yearParam year) with
    | none => none
    | some [] => none
    | some (first :: rest) =>
      match yearParam year with
      | some y =>
        match (first :: rest).find? (fun m => releaseYearOf m = some y) with
        | some exact => some exact
        | none => some first
      | none => some first

/-- Embeds `getTMDBMovieDetails` (lines 186–190). -/
def getTMDBMovieDetails (env : Env) (tmdbId : Int) : Option TmdbMovie :=
  if ¬ env.tmdbKey then none else env.details tmdbId

def tmdbImageBase : String := "https://image.tmdb.org/t/p"

/-- Embeds `extractTMDBData` (lines 204–248), with null and empty values filtered out of the key set. -/
def extractTMDBData (tmdbMovie : TmdbMovie) (tmdbDetails : Option TmdbMovie) :
    TmdbData :=
  let data := tmdbDetails.getD tmdbMovie
  { poster_url :=
      match data.poster_path with
      | some p => if p = "" then none else some (tmdbImageBase ++ "/w500" ++ p)
      | none => none
    backdrop_url :=
      match data.backdrop_path with
      | some p => if p = "" then none else some (tmdbImageBase ++ "/w1280" ++ p)
      | none => none
    tmdb_id := strFilter (some (toString data.id))
    plot_summary := strFilter data.overview
    country :=
      match data.production_countries.head? with
      | some c => if c = "" then none else some c
      | none => none
    language := strFilter data.original_language
    budget := intFilter data.budget
    box_office := intFilter data.revenue
    director :=
      match tmdbDetails with
      | some d =>
        match d.credits_crew with
        | some crew => strFilter ((crew.find? (fun p => p.1 = "Director")).map (·.2))
        | none => none
      | none => none
    genres := data.genres
    trailer_url :=
      match tmdbDetails with
      | some d =>
        match d.videos with
        | some vs =>
          (vs.find? (fun v => v.vtype = "Trailer" && v.site = "YouTube")).map
            (fun v => "https://www.youtube.com/watch?v=" ++ v.key)
        | none => none
      | none => none }

/-- Embeds `enrichMovieWithTMDB` (lines 250–277): all failures collapse to the
empty map (`{}`). -/
def enrichMovieWithTMDB (env : Env) (title : Option String) (year : Option Int) :
    TmdbData :=
  match searchTMDBMovie env title year with
  | none => {}
  | some m => extractTMDBData m (getTMDBMovieDetails env m.id)

/-! ## Store operations

`.maybeSingle()` yields the row when exactly one matches; with no match it
yields `null`, and with several matches PostgREST reports an error — the
call sites read only `data`, which is then `null` as well. -/

def maybeSingle : List MovieRow → Option MovieRow
  | [r] => some r
  | _ => none

def findByLetterboxd (db : DB) (s : String) : Option MovieRow :=
  maybeSingle (db.movies.filter (fun r => r.letterboxd_id = some s))

def findByTitleYear (db : DB) (t : String) (y : Int) : Option MovieRow :=
  maybeSingle (db.movies.filter (fun r => r.title = some t && r.year = some y))

/-- Apply an UPDATE payload: keys present in the map overwrite the column,
absent keys leave it alone.  Only TMDB fields ever appear in the map, so
`id`, `title`, `year`, `letterboxd_id` and `trakt_id` are never touched. -/
def applyTmdbUpdate (r : MovieRow) (t : TmdbData) : MovieRow :=
  { r with
    poster_url := match t.poster_url with | some v => some v | none => r.poster_url
    backdrop_url := match t.backdrop_url with | some v => some v | none => r.backdrop_url
    tmdb_id := match t.tmdb_id with | some v => some v | none => r.tmdb_id
    plot_summary := match t.plot_summary with | some v => some v | none => r.plot_summary
    country := match t.country with | some v => some v | none => r.country
    language := match t.language with | some v => some v | none => r.language
    budget := match t.budget with | some v => some v | none => r.budget
    box_office := match t.box_office with | some v => some v | none => r.box_office
    director := match t.director with | some v => some v | none => r.director
    genres := match t.genres with | some v => some v | none => r.genres
    trailer_url := match t.trailer_url with | some v => some v | none => r.trailer_url }

/-- Embeds the UPDATE call of lines 314–319.
`env.updateOk` decides whether the storage layer accepts the update. -/
def updateMovie (env : Env) (db : DB) (idv : Nat) (t : TmdbData) :
    Except String MovieRow × DB :=
  if ¬ env.updateOk idv then (.error "movies update failed", db)
  else
    match db.movies.find? (fun r => r.id = idv) with
    | none => (.error "PGRST116: zero rows returned for single()", db)
    | some r =>
      (.ok (applyTmdbUpdate r t),
       { db with movies := db.movies.map (fun x => if x.id = idv then applyTmdbUpdate x t else x) })

/-- Embeds the INSERT call of lines 351–355, with
the schema constraints: `title NOT NULL`, `letterboxd_id UNIQUE`,
`trakt_id UNIQUE` (nulls exempt from uniqueness). -/
def insertMovie (db : DB) (mk : Nat → MovieRow) : Except String MovieRow × DB :=
  if (mk db.nextMovieId).title = none then
    (.error "null value in column title violates not-null constraint", db)
  else if (mk db.nextMovieId).letterboxd_id ≠ none &&
      db.movies.any (fun r => r.letterboxd_id = (mk db.nextMovieId).letterboxd_id) then
    (.error "duplicate key value violates unique constraint movies_letterboxd_id_key", db)
  else if (mk db.nextMovieId).trakt_id ≠ none &&
      db.movies.any (fun r => r.trakt_id = (mk db.nextMovieId).trakt_id) then
    (.error "duplicate key value violates unique constraint movies_trakt_id_key", db)
  else
    (.ok (mk db.nextMovieId),
     { db with movies := db.movies ++ [mk db.nextMovieId], nextMovieId := db.nextMovieId + 1 })

/-! ## `upsertMovie` (lines 280–369) -/

/-- Lines 286–293: the `letterboxd_id` lookup, guarded by truthiness. -/
def lookupByLb (db : DB) (d : MovieDraft) : Option MovieRow :=
  match d.externalIds.letterboxd_id with
  | some s => if s = "" then none else findByLetterboxd db s
  | none => none

/-- Lines 283–303: look up by `letterboxd_id`, then by exact `(title, year)`
(both guarded by truthiness). -/
def lookupExisting (db : DB) (d : MovieDraft) : Option MovieRow :=
  match lookupByLb db d with
  | some m => some m
  | none =>
    if truthyS d.title && truthyI d.year then
      findByTitleYear db (d.title.getD "") (d.year.getD 0)
    else none

/-- Lines 305–329: the existing-movie branch.  A missing poster triggers a
best-effort re-enrichment; a failed UPDATE is swallowed and the unmodified
existing row is returned. -/
def existingBranch (env : Env) (db : DB) (m : MovieRow) :
    Except String MovieRow × DB :=
  if ¬ truthyS m.poster_url && env.tmdbKey then
    if ¬ (enrichMovieWithTMDB env m.title m.year).isEmpty then
      match updateMovie env db m.id (enrichMovieWithTMDB env m.title m.year) with
      | (.ok updated, db') => (.ok updated, db')
      | (.error _, db') => (.ok m, db')
    else (.ok m, db)
  else (.ok m, db)

/-- Lines 331–349: the row handed to INSERT — base data spread with the
enrichment map (present enrichment keys win). -/
def newMovieRow (d : MovieDraft) (t : TmdbData) (idv : Nat) : MovieRow :=
  { id := idv
    title := d.title
    year := d.year
    director := match t.director with | some v => some v | none => d.director
    letterboxd_id := d.externalIds.letterboxd_id
    trakt_id := d.externalIds.trakt_id
    poster_url := t.poster_url
    backdrop_url := t.backdrop_url
    tmdb_id := t.tmdb_id
    plot_summary := t.plot_summary
    country := t.country
    language := t.language
    budget := t.budget
    box_office := t.box_office
    genres := t.genres
    trailer_url := t.trailer_url }

/-- Lines 342–346: enrichment for a new movie is attempted only when the
API key is set and both title and year are truthy. -/
def insertEnrichment (env : Env) (d : MovieDraft) : TmdbData :=
  if env.tmdbKey && truthyS d.title && truthyI d.year then
    enrichMovieWithTMDB env d.title d.year
  else {}

def upsertMovie (env : Env) (db : DB) (d : MovieDraft) :
    Except String MovieRow × DB :=
  match lookupExisting db d with
  | some m => existingBranch env db m
  | none => insertMovie db (newMovieRow d (insertEnrichment env d))

/-! ## Source extraction (lines 444–599)

An unguarded `title.match(...)` on a missing title throws a `TypeError`;
everything else is total. -/

def typeErrorMsg : String := "Cannot read properties of undefined (reading 'match')"

/-- Embeds `extractLetterboxdData` (lines 502–532). -/
def extractLetterboxdData (fi : FeedItem) (md : MovieDraft) :
    Except String MovieDraft :=
  let md := { md with source := "letterboxd" }
  -- lines 508–516: parse title/year only when md.title is falsy
  match
    (if truthyS md.title then Except.ok md
     else
       match fi.title with
       | none => Except.error typeErrorMsg
       | some t =>
         let (pt, py) := letterboxdTitleParse t
         Except.ok { md with title := some pt, year := py <|> md.year }) with
  | .error e => .error e
  | .ok md =>
    -- lines 518–524: rating and review from the content body
    let md :=
      if truthyS fi.content then
        let c := fi.content.getD ""
        { md with
          rating := (letterboxdRatingOf c) <|> md.rating
          review := some (stripAndTrim c) }
      else md
    -- lines 526–529: letterboxd id from the link
    match fi.link with
    | none => .error typeErrorMsg
    | some l =>
      match letterboxdIdOf l with
      | some slug =>
        .ok { md with externalIds := { md.externalIds with letterboxd_id := some slug } }
      | none => .ok md

/-- Embeds `extractTraktData` (lines 534–576). -/
def extractTraktData (fi : FeedItem) (md : MovieDraft) : MovieDraft :=
  let md := { md with source := "trakt" }
  -- lines 540–549: always parse title/year when the title is truthy
  let md :=
    if truthyS fi.title then
      let t := fi.title.getD ""
      let (pt, py) := traktTitleParse t
      { md with title := some pt, year := py <|> md.year }
    else md
  -- lines 552–561: review plus `X/10` rating from content, else summary
  let md :=
    if truthyS fi.content then
      let c := fi.content.getD ""
      { md with
        review := some (stripAndTrim c)
        rating := (traktRatingOf c) <|> md.rating }
    else if truthyS fi.summary then
      { md with review := some (stripAndTrim (fi.summary.getD "")) }
    else md
  -- lines 564–569: trakt id from the link, only if not already set
  if truthyS fi.link && ¬ truthyS md.externalIds.trakt_id then
    match traktIdOfLink (fi.link.getD "") with
    | some tid => { md with externalIds := { md.externalIds with trakt_id := some tid } }
    | none => md
  else md

/-- Embeds `extractGenericData` (lines 578–599). -/
def extractGenericData (fi : FeedItem) (md : MovieDraft) :
    Except String MovieDraft :=
  let md := { md with source := "generic" }
  match
    (if truthyS md.title then Except.ok md
     else
       match fi.title with
       | none => Except.error typeErrorMsg
       | some t =>
         match parenYearScan t.data with
         | some y =>
           Except.ok { md with
             year := some (y : Int)
             title := some (String.mk (jsTrim (removeFirstParenYear t.data))) }
         | none => Except.ok { md with title := some t }) with
  | .error e => .error e
  | .ok md =>
    .ok (if truthyS fi.content then
          { md with review := some (stripAndTrim (fi.content.getD "")) }
         else md)

/-- Embeds `extractMovieData` (lines 444–500). -/
def extractMovieData (env : Env) (fi : FeedItem) : Except String MovieDraft :=
  let md : MovieDraft :=
    { sourceUrl := fi.link
      watchedAt :=
        if truthyS fi.pubDate then fi.pubDate.getD ""
        else if truthyS fi.date then fi.date.getD ""
        else env.now }
  -- lines 463–465: a directly supplied trakt_id wins
  let md :=
    if truthyS fi.trakt_id then
      { md with externalIds := { md.externalIds with trakt_id := fi.trakt_id } }
    else md
  -- lines 468–473: otherwise extract it from the EchoFeed id field
  let md :=
    if truthyS fi.id && ¬ truthyS md.externalIds.trakt_id then
      match traktIdOfGuid (fi.id.getD "") with
      | some tid => { md with externalIds := { md.externalIds with trakt_id := some tid } }
      | none => md
    else md
  -- lines 480–494: platform classification, first match wins
  if truthyS fi.link && strIncludes (fi.link.getD "") "letterboxd.com" then
    extractLetterboxdData fi md
  else if truthyS fi.link && strIncludes (fi.link.getD "") "trakt.tv" then
    .ok (extractTraktData fi md)
  else if truthyS md.externalIds.trakt_id then
    .ok (extractTraktData fi md)
  else
    extractGenericData fi md

/-! ## Watch creation (lines 601–630)

The insert is checked against the `movie_watches` schema: the foreign key
on `movie_id`, and `personal_rating DECIMAL(3,1) CHECK (personal_rating >= 0
AND personal_rating <= 10)`.  PostgreSQL casts the incoming numeric literal
to `DECIMAL(3,1)` (round half away from zero to one fractional digit;
error when the rounded value needs more than 3 digits of precision)
*before* evaluating the CHECK constraint. -/

/-- Cast the incoming rating to `DECIMAL(3,1)` (rounding first), then check
precision-3 overflow, then the CHECK constraint. -/
def ratingStored : Option Dec → Except String (Option Dec)
  | none => .ok none
  | some r =>
    if 1000 ≤ (Dec.pgRound1 r).m then .error "numeric field overflow"
    else if Dec.lt (Dec.pgRound1 r) (Dec.ofNat 0) || Dec.lt (Dec.ofNat 10) (Dec.pgRound1 r) then
      .error "new row violates check constraint movie_watches_personal_rating_check"
    else .ok (some (Dec.pgRound1 r))

/-- The inserted `movie_watches` row (lines 604–619). -/
def newWatchRow (env : Env) (movieId : Nat) (fi : FeedItem) (d : MovieDraft)
    (pr : Option Dec) (idv : Nat) : WatchRow :=
  { id := idv
    movie_id := movieId
    watched_at := d.watchedAt
    personal_rating := pr
    review_text := d.review
    source := d.source
    source_url := d.sourceUrl
    external_id := jsOrS fi.guid fi.link
    meta_feed_title := fi.title
    meta_feed_content := fi.content
    processed_at := env.now }

def createMovieWatch (env : Env) (db : DB) (movieId : Nat) (fi : FeedItem)
    (d : MovieDraft) : Except String WatchRow × DB :=
  if ¬ db.movies.any (fun m => m.id = movieId) then
    (.error "insert or update on table movie_watches violates foreign key constraint", db)
  else
    match ratingStored d.rating with
    | .error e => (.error e, db)
    | .ok pr =>
      (.ok (newWatchRow env movieId fi d pr db.nextWatchId),
       { db with watches := db.watches ++ [newWatchRow env movieId fi d pr db.nextWatchId]
                 nextWatchId := db.nextWatchId + 1 })

/-! ## Webhook pipeline (lines 372–439) -/

structure ProcessResult where
  movie : MovieRow
  watch : WatchRow
  deriving Repr, DecidableEq

/-- Embeds `processMovieFeedItem` (lines 427–439).  A failure leaves whatever
state was already written — there is no transaction. -/
def processMovieFeedItem (env : Env) (fi : FeedItem) (db : DB) :
    Except String ProcessResult × DB :=
  match extractMovieData env fi with
  | .error e => (.error e, db)
  | .ok d =>
    match upsertMovie env db d with
    | (.error e, db₁) => (.error e, db₁)
    | (.ok m, db₁) =>
      match createMovieWatch env db₁ m.id fi d with
      | (.error e, db₂) => (.error e, db₂)
      | (.ok w, db₂) => (.ok ⟨m, w⟩, db₂)

inductive WebhookResp where
  | ok (message : String) (enriched : Bool) (result : ProcessResult)
  | err (details : String)
  deriving Repr, DecidableEq

def noFeedItemMsg : String :=
  "No valid feed item found in webhook payload. Expected either payload.item or direct payload with id/title fields"

/-- Lines 378–390: choose the nested item, else the payload itself when it
has a truthy `id` or `title`, else throw. -/
def payloadFeedItem (p : Payload) : Option FeedItem :=
  match p.item with
  | some it => some it
  | none =>
    if truthyS p.id || truthyS p.title then some p.toFeedItem else none

/-- Embeds `handleEchoFeedWebhook` (lines 372–425).  The `enriched` flag of the
success envelope is `!!result.movie.poster_url`. -/
def handleEchoFeedWebhook (env : Env) (p : Payload) (db : DB) :
    WebhookResp × DB :=
  match payloadFeedItem p with
  | none => (.err noFeedItemMsg, db)
  | some fi =>
    match processMovieFeedItem env fi db with
    | (.error e, db') => (.err e, db')
    | (.ok res, db') =>
      (.ok ("Successfully processed movie: " ++ (res.movie.title.getD "null"))
        (truthyS res.movie.poster_url) res, db')

/-! ## Administrative cleanup (lines 765–838)

With supabase-js v2, `.delete()` not followed by `.select()` resolves with
`data: null`; the handler's `deletedWatches?.length || 0` and
`deletedMovies?.length || 0` are therefore always `0`. -/

inductive CleanupResp where
  | ok (watches : Nat) (movies : Nat)
  | badRequest (msg : String)
  deriving Repr, DecidableEq

def handleCleanup (db : DB) (movieIds : Option (List Nat)) :
    CleanupResp × DB :=
  match movieIds with
  | none => (.badRequest "movieIds array is required", db)
  | some ids =>
    let db₁ := { db with watches := db.watches.filter (fun w => ¬ w.movie_id ∈ ids) }
    let db₂ := { db₁ with movies := db₁.movies.filter (fun m => ¬ m.id ∈ ids) }
    (.ok 0 0, db₂)

/-! ## Concrete fixtures used in closed statements below -/

/-- An environment with enrichment disabled. -/
def plainEnv : Env :=
  { tmdbKey := false
    searchResults := fun _ _ => none
    details := fun _ => none
    updateOk := fun _ => true
    now := "2026-01-01T00:00:00.000Z" }

/-- An environment whose metadata search always errors (simulated 500). -/
def failEnv : Env :=
  { plainEnv with tmdbKey := true }

/-- An environment that finds a poster for every search but whose store
refuses every UPDATE. -/
def posterEnv : Env :=
  { tmdbKey := true
    searchResults := fun _ _ => some [{ id := 603, poster_path := some "/p.jpg" }]
    details := fun _ => none
    updateOk := fun _ => false
    now := "2026-01-01T00:00:00.000Z" }

def lbItem : FeedItem :=
  { title := some "The Matrix, 1999"
    content := some "★★★★☆ great"
    link := some "https://letterboxd.com/u1/film/the-matrix/"
    guid := some "g1" }

def traktItem : FeedItem :=
  { title := some "Heat"
    content := some "11/10"
    trakt_id := some "950" }

/-- A store with one movie and one watch belonging to it. -/
def cleanupDb : DB :=
  { movies := [{ id := 1, title := some "Gone" }]
    watches := [{ id := 0, movie_id := 1, watched_at := "t", source := "generic" }]
    nextMovieId := 2
    nextWatchId := 1 }

/-- A yearless Trakt draft (title present, no parseable year). -/
def solarisDraft : MovieDraft :=
  { title := some "Solaris"
    source := "trakt"
    watchedAt := "t"
    externalIds := { trakt_id := some "771" } }

/-- A yearless generic draft with no external ids at all. -/
def duneDraft : MovieDraft :=
  { title := some "Dune"
    source := "generic"
    watchedAt := "t" }

/-- Another yearless Trakt draft, for the resolution-idempotence claim. -/
def stalkerDraft : MovieDraft :=
  { title := some "Stalker"
    source := "trakt"
    watchedAt := "t"
    externalIds := { trakt_id := some "1979" } }

/-- The draft extracted from `lbItem` (cf. the letterboxd extraction). -/
def matrixDraft : MovieDraft :=
  { title := some "The Matrix"
    year := some 1999
    review := some "★★★★☆ great"
    source := "letterboxd"
    sourceUrl := lbItem.link
    watchedAt := plainEnv.now
    externalIds := { letterboxd_id := some "the-matrix" } }

def matrixMovie : MovieRow :=
  { id := 0
    title := some "The Matrix"
    year := some 1999
    letterboxd_id := some "the-matrix" }

def matrixDb1 : DB := { movies := [matrixMovie], nextMovieId := 1 }

def matrixWatch : WatchRow :=
  { id := 0
    movie_id := 0
    watched_at := plainEnv.now
    review_text := some "★★★★☆ great"
    source := "letterboxd"
    source_url := lbItem.link
    external_id := some "g1"
    meta_feed_title := lbItem.title
    meta_feed_content := lbItem.content
    processed_at := plainEnv.now }

def matrixDb2 : DB :=
  { movies := [matrixMovie], watches := [matrixWatch], nextMovieId := 1, nextWatchId := 1 }

/-- The draft extracted from `traktItem` (rating 11 from "11/10"). -/
def heatDraft : MovieDraft :=
  { title := some "Heat"
    rating := some (Dec.ofNat 11)
    review := some "11/10"
    source := "trakt"
    watchedAt := plainEnv.now
    externalIds := { trakt_id := some "950" } }

def heatMovie : MovieRow :=
  { id := 0, title := some "Heat", trakt_id := some "950" }

def heatDb : DB := { movies := [heatMovie], nextMovieId := 1 }

/-- A minimal draft carrying only a rating. -/
def rateDraft (r : Dec) : MovieDraft :=
  { watchedAt := "t", source := "generic", rating := some r }

/-- An existing poster-less Movie row and a store holding only it. -/
def fooMovie : MovieRow :=
  { id := 0, title := some "Foo", year := some 2000, letterboxd_id := some "foo" }

def fooDb : DB := { movies := [fooMovie], nextMovieId := 1 }

def fooDraft : MovieDraft :=
  { title := some "Foo"
    year := some 2000
    source := "letterboxd"
    watchedAt := "t"
    externalIds := { letterboxd_id := some "foo" } }

end Msbapi

section SanityExamples
open Msbapi
example : letterboxdTitleParse "The Matrix, 1999" = ("The Matrix", some 1999) := by decide
example : letterboxdTitleParse "Cobweb" = ("Cobweb", none) := by decide
example : letterboxdTitleParse "X, 1000, 2000" = ("X", some 1000) := by decide
example : letterboxdTitleParse "Name,1999" = ("Name", some 1999) := by decide
example : letterboxdTitleParse "Name, 20000" = ("Name", some 2000) := by decide
example : letterboxdTitleParse ", 1999" = (", 1999", none) := by decide
example : letterboxdRatingOf "★★★ good" = none := by decide
example : letterboxdRatingOf (String.mk ([mojiHatA, mojiTilde] ++ List.replicate 3 mojiEllipsis ++ " x".data)) = some (Dec.ofNat 5) := by decide
example : traktTitleParse "The Matrix (1999)" = ("The Matrix", some 1999) := by decide
example : traktTitleParse "The Matrix, 1999" = ("The Matrix", some 1999) := by decide
example : traktTitleParse "  Plain  " = ("Plain", none) := by decide
example : traktRatingOf "I rate 7.5/10 stars" = some ⟨75, 1⟩ := by decide
example : traktRatingOf "10.04/10" = some ⟨1004, 2⟩ := by decide
example : Dec.pgRound1 ⟨1004, 2⟩ = ⟨100, 1⟩ := by decide
example : Dec.pgRound1 ⟨1005, 2⟩ = ⟨101, 1⟩ := by decide
example : Dec.le (Dec.pgRound1 ⟨1004, 2⟩) (Dec.ofNat 10) = true := by decide
example : Dec.lt (Dec.ofNat 10) ⟨1004, 2⟩ = true := by decide
example : traktRatingOf "no rating" = none := by decide
example : stripAndTrim " <b>Hi</b> there <br/> " = "Hi there" := by decide
example : letterboxdIdOf "https://letterboxd.com/user1/film/the-matrix/" = some "the-matrix" := by decide
example : traktIdOfLink "https://trakt.tv/movies/the-matrix-1999" = some "the-matrix-1999" := by decide
example : traktIdOfGuid "tag:trakt.tv,2005:Movie/12345/checkin" = some "12345" := by decide
example : strIncludes "https://letterboxd.com/u/film/x/" "letterboxd.com" = true := by decide
example : removeFirstParenYear "Foo (1999) Bar".data = "Foo Bar".data := by decide
example : parenYearScan "Foo (1999) Bar".data = some 1999 := by decide

example :
    extractMovieData plainEnv lbItem =
      .ok { title := some "The Matrix"
            year := some 1999
            rating := none
            review := some "★★★★☆ great"
            source := "letterboxd"
            sourceUrl := lbItem.link
            watchedAt := plainEnv.now
            externalIds := { letterboxd_id := some "the-matrix" } } := by decide

example :
    (handleEchoFeedWebhook plainEnv { lbItem with } {}).2.movies.length = 1 ∧
    (handleEchoFeedWebhook plainEnv { lbItem with } {}).2.watches.length = 1 := by decide

example :
    (extractMovieData plainEnv traktItem).map (fun d => (d.source, d.rating, d.year)) =
      .ok ("trakt", some (Dec.ofNat 11), none) := by decide

example :
    (handleEchoFeedWebhook plainEnv { traktItem with } {}).2.movies.length = 1 ∧
    (handleEchoFeedWebhook plainEnv { traktItem with } {}).2.watches.length = 0 := by decide
end SanityExamples

namespace Msbapi

/-! ## General lemmas about the store operations -/

theorem maybeSingle_map (f : MovieRow → MovieRow) (l : List MovieRow) :
    maybeSingle (l.map f) = (maybeSingle l).map f := by
  match l with
  | [] => rfl
  | [r] => rfl
  | a :: b :: t => rfl

theorem filter_map_comm (f : MovieRow → MovieRow) (p : MovieRow → Bool)
    (h : ∀ x, p (f x) = p x) (l : List MovieRow) :
    (l.map f).filter p = (l.filter p).map f := by
  induction l with
  | nil => rfl
  | cons a t ih =>
    simp only [List.map_cons, List.filter_cons, h a]
    cases p a <;> simp [ih]

/-- A list that `maybeSingle` rejects and that has at most one element is empty. -/
theorem eq_nil_of_maybeSingle_none (l : List MovieRow)
    (h1 : maybeSingle l = none) (h2 : l.length ≤ 1) : l = [] := by
  match l with
  | [] => rfl
  | [r] => exact absurd h1 (by simp [maybeSingle])
  | a :: b :: t => simp at h2

theorem applyTmdbUpdate_id (r : MovieRow) (t : TmdbData) :
    (applyTmdbUpdate r t).id = r.id := rfl

theorem applyTmdbUpdate_letterboxd (r : MovieRow) (t : TmdbData) :
    (applyTmdbUpdate r t).letterboxd_id = r.letterboxd_id := rfl

theorem applyTmdbUpdate_trakt (r : MovieRow) (t : TmdbData) :
    (applyTmdbUpdate r t).trakt_id = r.trakt_id := rfl

theorem applyTmdbUpdate_title (r : MovieRow) (t : TmdbData) :
    (applyTmdbUpdate r t).title = r.title := rfl

theorem applyTmdbUpdate_year (r : MovieRow) (t : TmdbData) :
    (applyTmdbUpdate r t).year = r.year := rfl

theorem maybeSingle_mem {l : List MovieRow} {m : MovieRow}
    (hl : maybeSingle l = some m) : m ∈ l := by
  match l with
  | [] => simp [maybeSingle] at hl
  | [r] => simp [maybeSingle] at hl; simp [hl]
  | a :: b :: t => simp [maybeSingle] at hl

/-- A row found by either lookup is a row of the store. -/
theorem lookupExisting_mem {db : DB} {d : MovieDraft} {m : MovieRow}
    (h : lookupExisting db d = some m) : m ∈ db.movies := by
  unfold lookupExisting at h
  rcases hby : lookupByLb db d with _ | r
  · rw [hby] at h
    simp only at h
    by_cases hg : (truthyS d.title && truthyI d.year) = true
    · rw [if_pos hg] at h
      exact List.mem_of_mem_filter (maybeSingle_mem h)
    · rw [if_neg hg] at h
      exact absurd h (by simp)
  · rw [hby] at h
    simp only [Option.some.injEq] at h
    subst h
    unfold lookupByLb at hby
    split at hby
    · split at hby
      · exact absurd hby (by simp)
      · exact List.mem_of_mem_filter (maybeSingle_mem hby)
    · exact absurd hby (by simp)

theorem updateMovie_watches (env : Env) (db : DB) (i : Nat) (t : TmdbData) :
    (updateMovie env db i t).2.watches = db.watches := by
  unfold updateMovie
  split
  · rfl
  · split <;> rfl

theorem insertMovie_watches (db : DB) (mk : Nat → MovieRow) :
    (insertMovie db mk).2.watches = db.watches := by
  unfold insertMovie
  split
  · rfl
  · split
    · rfl
    · split <;> rfl

/-- Lemma: `updateMovie` either rewrites the matching rows in place and returns the
updated row, or fails leaving the store untouched. -/
theorem updateMovie_spec (env : Env) (db : DB) (i : Nat) (t : TmdbData) :
    (∃ r, db.movies.find? (fun r => r.id = i) = some r ∧
      updateMovie env db i t =
        (.ok (applyTmdbUpdate r t),
         { db with movies := db.movies.map (fun x => if x.id = i then applyTmdbUpdate x t else x) })) ∨
    (∃ e, updateMovie env db i t = (.error e, db)) := by
  unfold updateMovie
  split
  · exact Or.inr ⟨_, rfl⟩
  · split
    · exact Or.inr ⟨_, rfl⟩
    · next r hr => exact Or.inl ⟨r, hr, rfl⟩

/-- The existing-movie branch always succeeds, returns a row with the id of
the found row, and at most rewrites TMDB columns of the stored rows in
place (captured by a map `f` that fixes id, external ids, title and year). -/
theorem existingBranch_spec (env : Env) (db : DB) (m : MovieRow)
    (hm : m ∈ db.movies) :
    ∃ m' f, existingBranch env db m = (.ok m', { db with movies := db.movies.map f }) ∧
      m'.id = m.id ∧ m' ∈ db.movies.map f ∧
      ∀ r, (f r).id = r.id ∧ (f r).letterboxd_id = r.letterboxd_id ∧
        (f r).trakt_id = r.trakt_id ∧ (f r).title = r.title ∧ (f r).year = r.year := by
  have hid : ∀ (db' : DB), { db' with movies := db'.movies.map (fun r => r) } = db' := by
    intro db'
    simp
  have htriv : ∃ m' f, ((Except.ok m : Except String MovieRow), db) =
      (.ok m', { db with movies := db.movies.map f }) ∧
      m'.id = m.id ∧ m' ∈ db.movies.map f ∧
      ∀ r, (f r).id = r.id ∧ (f r).letterboxd_id = r.letterboxd_id ∧
        (f r).trakt_id = r.trakt_id ∧ (f r).title = r.title ∧ (f r).year = r.year := by
    refine ⟨m, fun r => r, ?_, rfl, by simpa using hm, fun r => ⟨rfl, rfl, rfl, rfl, rfl⟩⟩
    rw [hid db]
  unfold existingBranch
  split
  · split
    · rcases updateMovie_spec env db m.id (enrichMovieWithTMDB env m.title m.year) with
        ⟨r, hfind, heq⟩ | ⟨e, heq⟩
      · rw [heq]
        have hrid : r.id = m.id := by
          have := List.find?_some hfind
          exact of_decide_eq_true this
        refine ⟨applyTmdbUpdate r (enrichMovieWithTMDB env m.title m.year),
          fun x => if x.id = m.id then applyTmdbUpdate x (enrichMovieWithTMDB env m.title m.year) else x,
          rfl, by rw [applyTmdbUpdate_id, hrid], ?_, ?_⟩
        · have hrmem : r ∈ db.movies := List.mem_of_find?_eq_some hfind
          have : (if r.id = m.id then applyTmdbUpdate r (enrichMovieWithTMDB env m.title m.year) else r)
              = applyTmdbUpdate r (enrichMovieWithTMDB env m.title m.year) := by
            rw [if_pos hrid]
          rw [← this]
          exact List.mem_map_of_mem _ hrmem
        · intro x
          by_cases hx : x.id = m.id <;>
            refine ⟨?_, ?_, ?_, ?_, ?_⟩ <;>
              simp [hx, applyTmdbUpdate]
      · rw [heq]
        exact htriv
    · exact htriv
  · exact htriv

theorem findByLetterboxd_map (db : DB) (f : MovieRow → MovieRow) (s : String)
    (hf : ∀ r, (f r).letterboxd_id = r.letterboxd_id) :
    findByLetterboxd { db with movies := db.movies.map f } s =
      (findByLetterboxd db s).map f := by
  unfold findByLetterboxd
  simp only
  rw [filter_map_comm f _ (fun x => by simp [hf x]), maybeSingle_map]

theorem findByTitleYear_map (db : DB) (f : MovieRow → MovieRow) (t : String) (y : Int)
    (hft : ∀ r, (f r).title = r.title) (hfy : ∀ r, (f r).year = r.year) :
    findByTitleYear { db with movies := db.movies.map f } t y =
      (findByTitleYear db t y).map f := by
  unfold findByTitleYear
  simp only
  rw [filter_map_comm f _ (fun x => by simp [hft x, hfy x]), maybeSingle_map]

theorem lookupByLb_map (db : DB) (d : MovieDraft) (f : MovieRow → MovieRow)
    (hf : ∀ r, (f r).letterboxd_id = r.letterboxd_id) :
    lookupByLb { db with movies := db.movies.map f } d = (lookupByLb db d).map f := by
  rcases hlb : d.externalIds.letterboxd_id with _ | s
  · simp [lookupByLb, hlb]
  · by_cases hs : s = "" <;>
      simp [lookupByLb, hlb, hs, findByLetterboxd_map db f s hf]

/-- The two-stage lookup commutes with an in-place rewrite of the stored
rows that fixes `letterboxd_id`, `title` and `year`. -/
theorem lookupExisting_map (db : DB) (d : MovieDraft) (f : MovieRow → MovieRow)
    (hfl : ∀ r, (f r).letterboxd_id = r.letterboxd_id)
    (hft : ∀ r, (f r).title = r.title) (hfy : ∀ r, (f r).year = r.year) :
    lookupExisting { db with movies := db.movies.map f } d =
      (lookupExisting db d).map f := by
  unfold lookupExisting
  rw [lookupByLb_map db d f hfl]
  rcases hby : lookupByLb db d with _ | r
  · simp only [hby, Option.map_none']
    by_cases hg : (truthyS d.title && truthyI d.year) = true
    · rw [if_pos hg, if_pos hg, findByTitleYear_map db f _ _ hft hfy]
    · rw [if_neg hg, if_neg hg]
      rfl
  · simp only [hby, Option.map_some']

/-- Lemma: `upsertMovie` never touches the `movie_watches` table. -/
theorem upsert_watches (env : Env) (db : DB) (d : MovieDraft) :
    (upsertMovie env db d).2.watches = db.watches := by
  unfold upsertMovie
  rcases hlk : lookupExisting db d with _ | m
  · exact insertMovie_watches db _
  · show (existingBranch env db m).2.watches = db.watches
    unfold existingBranch
    split
    · split
      · rcases hup : updateMovie env db m.id (enrichMovieWithTMDB env m.title m.year) with ⟨res, db'⟩
        have hw : db'.watches = db.watches := by
          have := updateMovie_watches env db m.id (enrichMovieWithTMDB env m.title m.year)
          rw [hup] at this
          exact this
        cases res <;> simpa using hw
      · rfl
    · rfl

/-- A successful `upsertMovie` returns a row that is in the resulting store. -/
theorem upsert_ok_mem {env : Env} {db : DB} {d : MovieDraft} {m : MovieRow} {db₁ : DB}
    (h : upsertMovie env db d = (.ok m, db₁)) : m ∈ db₁.movies := by
  unfold upsertMovie at h
  rcases hlk : lookupExisting db d with _ | m0
  · rw [hlk] at h
    simp only at h
    unfold insertMovie at h
    split at h
    · exact absurd h (by simp)
    · split at h
      · exact absurd h (by simp)
      · split at h
        · exact absurd h (by simp)
        · simp only [Prod.mk.injEq, Except.ok.injEq] at h
          rw [← h.2, ← h.1]
          simp
  · rw [hlk] at h
    simp only at h
    obtain ⟨m', f, heq, _, hmem, _⟩ := existingBranch_spec env db m0 (lookupExisting_mem hlk)
    rw [heq] at h
    simp only [Prod.mk.injEq, Except.ok.injEq] at h
    rw [← h.2, ← h.1]
    simpa using hmem

/-- C1 (amended): Movie resolution is idempotent for drafts carrying a
truthy letterboxd_id: if, starting from a store holding at most one row for
that id, a first `upsertMovie` call succeeds with movie `m₁`, then a second
call with the same draft also succeeds, returns a movie with the same id,
and leaves the number of Movie rows unchanged.  (The resolver never looks
up `trakt_id`, so the claim's trakt half fails — see the counterexample.) -/
theorem upsert_letterboxd_idempotent (env : Env) (db₀ : DB) (d : MovieDraft)
    (s : String)
    (hs : d.externalIds.letterboxd_id = some s) (hne : s ≠ "")
    (huniq : (db₀.movies.filter (fun r => r.letterboxd_id = some s)).length ≤ 1)
    (m₁ : MovieRow) (db₁ : DB)
    (h₁ : upsertMovie env db₀ d = (.ok m₁, db₁)) :
    ∃ m₂, (upsertMovie env db₁ d).1 = .ok m₂ ∧ m₂.id = m₁.id ∧
      (upsertMovie env db₁ d).2.movies.length = db₁.movies.length := by
  have hlb_eq : lookupByLb db₀ d = findByLetterboxd db₀ s := by
    simp [lookupByLb, hs, hne]
  rcases hlk : lookupExisting db₀ d with _ | m
  · -- insert path
    have h₁' : insertMovie db₀ (newMovieRow d (insertEnrichment env d)) = (.ok m₁, db₁) := by
      unfold upsertMovie at h₁
      rw [hlk] at h₁
      exact h₁
    unfold insertMovie at h₁'
    split at h₁'
    · exact absurd h₁' (by simp)
    · split at h₁'
      · exact absurd h₁' (by simp)
      · split at h₁'
        · exact absurd h₁' (by simp)
        · simp only [Prod.mk.injEq, Except.ok.injEq] at h₁'
          obtain ⟨hm₁, hdb₁⟩ := h₁'
          have hby0 : lookupByLb db₀ d = none := by
            unfold lookupExisting at hlk
            rcases hby : lookupByLb db₀ d with _ | r
            · rfl
            · rw [hby] at hlk
              simp at hlk
          have hfind0 : findByLetterboxd db₀ s = none := by
            rw [← hlb_eq]
            exact hby0
          have hfil : db₀.movies.filter (fun r => r.letterboxd_id = some s) = [] := by
            apply eq_nil_of_maybeSingle_none _ _ huniq
            exact hfind0
          have hm₁lb : m₁.letterboxd_id = some s := by
            rw [← hm₁]
            simp [newMovieRow, hs]
          have hmovies₁ : db₁.movies = db₀.movies ++ [m₁] := by
            rw [← hdb₁, ← hm₁]
          have hlk₂ : lookupExisting db₁ d = some m₁ := by
            have hfind₂ : findByLetterboxd db₁ s = some m₁ := by
              unfold findByLetterboxd
              rw [hmovies₁, List.filter_append, hfil]
              simp [maybeSingle, hm₁lb]
            have hby₂ : lookupByLb db₁ d = findByLetterboxd db₁ s := by
              simp [lookupByLb, hs, hne]
            unfold lookupExisting
            rw [hby₂, hfind₂]
          obtain ⟨m₂, f₂, heq₂, hid₂, _, _⟩ :=
            existingBranch_spec env db₁ m₁ (by rw [hmovies₁]; simp)
          have hrun₂ : upsertMovie env db₁ d = existingBranch env db₁ m₁ := by
            unfold upsertMovie
            rw [hlk₂]
          refine ⟨m₂, ?_, ?_, ?_⟩
          · rw [hrun₂, heq₂]
          · exact hid₂
          · rw [hrun₂, heq₂]
            simp
  · -- existing-movie path
    have hm0 : m ∈ db₀.movies := lookupExisting_mem hlk
    have h₁' : existingBranch env db₀ m = (.ok m₁, db₁) := by
      unfold upsertMovie at h₁
      rw [hlk] at h₁
      exact h₁
    obtain ⟨m', f, heq, hid', hmem, hf⟩ := existingBranch_spec env db₀ m hm0
    rw [heq] at h₁'
    simp only [Prod.mk.injEq, Except.ok.injEq] at h₁'
    obtain ⟨hm₁, hdb₁⟩ := h₁'
    have hlk₂ : lookupExisting db₁ d = some (f m) := by
      rw [← hdb₁]
      rw [lookupExisting_map db₀ d f (fun r => (hf r).2.1) (fun r => (hf r).2.2.2.1)
        (fun r => (hf r).2.2.2.2), hlk]
      rfl
    obtain ⟨m₂, f₂, heq₂, hid₂, _, _⟩ :=
      existingBranch_spec env db₁ (f m)
        (by rw [← hdb₁]; exact List.mem_map_of_mem f hm0)
    have hrun₂ : upsertMovie env db₁ d = existingBranch env db₁ (f m) := by
      unfold upsertMovie
      rw [hlk₂]
    refine ⟨m₂, ?_, ?_, ?_⟩
    · rw [hrun₂, heq₂]
    · rw [hid₂, (hf m).1, ← hm₁, hid']
    · rw [hrun₂, heq₂, ← hdb₁]
      simp

/-! ## Lemmas about the Letterboxd title scan -/

theorem getD_append_cons (p q : List Char) (c : Char) :
    (p ++ c :: q).getD p.length ' ' = c := by
  induction p with
  | nil => rfl
  | cons a t ih =>
    simp only [List.cons_append, List.length_cons, List.getD_cons_succ]
    exact ih

theorem drop_append_cons (p q : List Char) (c : Char) :
    (p ++ c :: q).drop (p.length + 1) = q := by
  induction p with
  | nil => rfl
  | cons a t ih =>
    simp only [List.cons_append, List.length_cons, List.drop_succ_cons]
    exact ih

/-- If no comma of `cs` is followed by optional whitespace and four digits,
the scan fails. -/
theorem lbTitleScan_eq_none : ∀ (cs acc : List Char),
    (∀ p q, cs = p ++ ',' :: q → lbYearAfter q = none) →
    lbTitleScan acc cs = none := by
  intro cs
  induction cs with
  | nil => intro acc _; rfl
  | cons c rest ih =>
    intro acc h
    have hcond : (acc ≠ [] && c = ',' && (lbYearAfter rest).isSome) = false := by
      by_cases hc : c = ','
      · have hnone : lbYearAfter rest = none := h [] rest (by rw [hc]; rfl)
        simp [hnone]
      · simp [hc]
    simp only [lbTitleScan, hcond, Bool.false_eq_true, if_false]
    by_cases hd : jsDotChar c = true
    · rw [if_pos hd]
      exact ih (c :: acc) (fun p q hpq => h (c :: p) q (by rw [hpq]; rfl))
    · rw [if_neg hd]

/-- When the split after `p` is the first comma-year split, the lazy scan
stops exactly there. -/
theorem lbTitleScan_append : ∀ (p acc rest : List Char) (y : Nat),
    (∀ c ∈ p, jsDotChar c = true) →
    lbYearAfter rest = some y →
    (acc = [] → p ≠ []) →
    (∀ p₁ q₁, p = p₁ ++ ',' :: q₁ → (p₁ = [] → acc ≠ []) →
      lbYearAfter (q₁ ++ ',' :: rest) = none) →
    lbTitleScan acc (p ++ ',' :: rest) = some (acc.reverse ++ p, y) := by
  intro p
  induction p with
  | nil =>
    intro acc rest y _ hy hacc _
    have hne : acc ≠ [] := fun h => (hacc h) rfl
    simp [lbTitleScan, hne, hy]
  | cons c p' ih =>
    intro acc rest y hdot hy _ hfirst
    have hcond : (acc ≠ [] && c = ',' && (lbYearAfter (p' ++ ',' :: rest)).isSome) = false := by
      rcases hacc' : acc with _ | ⟨a, t⟩
      · simp
      · by_cases hc : c = ','
        · have hnone : lbYearAfter (p' ++ ',' :: rest) = none := by
            refine hfirst [] p' (by rw [hc]; rfl) ?_
            intro _
            rw [hacc']
            simp
          simp [hnone]
        · simp [hc]
    rw [List.cons_append, lbTitleScan, hcond]
    simp only [Bool.false_eq_true, if_false]
    rw [if_pos (hdot c (by simp))]
    rw [ih (c :: acc) rest y (fun x hx => hdot x (by simp [hx])) hy (by simp)
      (fun p₁ q₁ hpq _ => hfirst (c :: p₁) q₁ (by rw [hpq]; rfl) (by simp))]
    simp

theorem or3_true {a b c : Bool} (h : (a || b || c) = true) :
    a = true ∨ b = true ∨ c = true := by
  cases a <;> cases b <;> cases c <;> simp_all

theorem or2_true {a b : Bool} (h : (a || b) = true) : a = true ∨ b = true := by
  cases a <;> cases b <;> simp_all

/-- C2 (amended): the Letterboxd title regex `^(.+?),\s*(\d{4})` splits on
the FIRST comma that is followed by optional whitespace and four digits
(the lazy group also may not contain line terminators and must be
non-empty): if `title = p ++ "," ++ rest` where `p` is such a prefix and no
comma inside `p` qualifies, extraction yields `(trim p, year-of rest)`;
and when no comma of the title is followed by optional whitespace and four
digits, extraction yields the original string with a null year. -/
theorem letterboxd_title_split_first_comma :
    (∀ (p rest : List Char) (y : Nat),
      p ≠ [] → (∀ c ∈ p, jsDotChar c = true) →
      lbYearAfter rest = some y →
      noEarlierCommaYear p rest = true →
      letterboxdTitleParse (String.mk (p ++ ',' :: rest)) =
        (String.mk (jsTrim p), some (y : Int))) ∧
    (∀ t : String, noCommaYearSplit t.data = true →
      letterboxdTitleParse t = (t, none)) := by
  constructor
  · intro p rest y hp hdot hy hno
    have hfirst : ∀ p₁ q₁, p = p₁ ++ ',' :: q₁ → (p₁ = [] → ([] : List Char) ≠ []) →
        lbYearAfter (q₁ ++ ',' :: rest) = none := by
      intro p₁ q₁ hpq hne1
      have hp₁ : p₁ ≠ [] := by
        intro h
        exact (hne1 h) rfl
      have hi : p₁.length < p.length := by
        rw [hpq]
        simp
      have htrip := by
        have hall := hno
        unfold noEarlierCommaYear at hall
        rw [List.all_eq_true] at hall
        exact hall p₁.length (by simpa using hi)
      rcases or3_true htrip with h0 | hnc | hnone
      · simp only [decide_eq_true_eq] at h0
        exact absurd (List.eq_nil_of_length_eq_zero h0) hp₁
      · have hnc' := of_decide_eq_true hnc
        rw [hpq] at hnc'
        exact absurd (getD_append_cons p₁ q₁ ',') hnc'
      · rw [Option.isNone_iff_eq_none] at hnone
        rw [hpq, drop_append_cons] at hnone
        exact hnone
    have hscan := lbTitleScan_append p [] rest y hdot hy (fun _ => hp) hfirst
    unfold letterboxdTitleParse
    rw [show (String.mk (p ++ ',' :: rest)).data = p ++ ',' :: rest from rfl, hscan]
    simp
  · intro t hno
    have h : ∀ p q, t.data = p ++ ',' :: q → lbYearAfter q = none := by
      intro p q hpq
      have hi : p.length < t.data.length := by
        rw [hpq]
        simp
      have hall := hno
      unfold noCommaYearSplit at hall
      rw [List.all_eq_true] at hall
      have htrip := hall p.length (by simpa using hi)
      rcases or2_true htrip with hnc | hnone
      · have hnc' := of_decide_eq_true hnc
        rw [hpq] at hnc'
        exact absurd (getD_append_cons p q ',') hnc'
      · rw [Option.isNone_iff_eq_none] at hnone
        rw [hpq, drop_append_cons] at hnone
        exact hnone
    unfold letterboxdTitleParse
    rw [lbTitleScan_eq_none t.data [] h]

/-- C2 (counterexample): on `"X, 1000, 2000"` the code splits at the first
comma-year, yielding `("X", 1000)`, not at the last as the claim demands
(`("X, 1000", 2000)`). -/
theorem letterboxd_title_not_last_comma :
    letterboxdTitleParse "X, 1000, 2000" = ("X", some 1000) ∧
    ("X", (some 1000 : Option Int)) ≠ ("X, 1000", some 2000) := by
  constructor
  · decide
  · decide

/-- C2 (witness): both halves of the amended statement applied at concrete
titles. -/
theorem letterboxd_title_split_first_comma_witness :
    letterboxdTitleParse (String.mk ("The Matrix".data ++ ',' :: " 1999".data)) =
      ("The Matrix", some 1999) ∧
    letterboxdTitleParse "Cobweb" = ("Cobweb", none) := by
  constructor
  · rw [letterboxd_title_split_first_comma.1 "The Matrix".data " 1999".data 1999
      (by decide) (by decide) (by decide) (by decide)]
    decide
  · rw [letterboxd_title_split_first_comma.2 "Cobweb" (by decide)]

/-- C5: a webhook payload with no nested `item` object and no top-level
`id` or `title` field is rejected with the descriptive "no valid feed item"
message, and the store is completely untouched — no Movie and no Watch row
is created. -/
theorem webhook_rejects_missing_title_source (env : Env) (p : Payload) (db : DB)
    (hitem : p.item = none) (hid : p.toFeedItem.id = none)
    (htitle : p.toFeedItem.title = none) :
    handleEchoFeedWebhook env p db = (.err noFeedItemMsg, db) := by
  unfold handleEchoFeedWebhook payloadFeedItem
  rw [hitem]
  simp [truthyS, hid, htitle]

/-- C5 (witness): the empty payload at the empty store. -/
theorem webhook_rejects_missing_title_source_witness :
    handleEchoFeedWebhook plainEnv {} {} = (.err noFeedItemMsg, {}) :=
  webhook_rejects_missing_title_source plainEnv {} {} rfl rfl rfl

/-- C6 (code bug): the committed rating regex is the Windows-1252 mojibake
`/â˜…+/` of `/★+/`, so genuine star glyphs are never matched: a content body
of three `★` followed by non-star filler yields no rating at all (the claim
and the repository docs — CHANGELOG "Star rating extraction (1-5 stars)" and
the `"★★★★☆ …" → personal_rating: 4` example — expect N).  The end-to-end
extraction on the spec's own Letterboxd scenario likewise leaves the rating
null. -/
theorem star_rating_mojibake_bug :
    letterboxdRatingOf (String.mk (List.replicate 3 starGlyph ++ " nice".data)) = none ∧
    (extractMovieData plainEnv lbItem).map (fun d => d.rating) = .ok none := by
  constructor
  · decide
  · decide

/-- C7 (amended): cleanup deletes every Watch row of the listed movies and
then the Movie rows themselves, but the reported counts are always zero —
the storage client returns no row data for a DELETE without a chained
`select()`, so `deletedWatches?.length || 0` is 0. -/
theorem cleanup_deletes_and_reports_zero (db : DB) (ids : List Nat) :
    (handleCleanup db (some ids)).1 = .ok 0 0 ∧
    (∀ w, w ∈ (handleCleanup db (some ids)).2.watches ↔
      w ∈ db.watches ∧ ¬ w.movie_id ∈ ids) ∧
    (∀ m, m ∈ (handleCleanup db (some ids)).2.movies ↔
      m ∈ db.movies ∧ ¬ m.id ∈ ids) := by
  refine ⟨rfl, ?_, ?_⟩
  · intro w
    simp [handleCleanup, List.mem_filter]
  · intro m
    simp [handleCleanup, List.mem_filter]

/-- C7 (counterexample): cleaning up one movie that has one watch deletes
both rows but reports `{watches: 0, movies: 0}`, not the actual counts. -/
theorem cleanup_counts_always_zero :
    (handleCleanup cleanupDb (some [1])).1 = .ok 0 0 ∧
    (handleCleanup cleanupDb (some [1])).2.watches.length = 0 ∧
    (handleCleanup cleanupDb (some [1])).2.movies.length = 0 ∧
    cleanupDb.watches.length = 1 ∧ cleanupDb.movies.length = 1 ∧
    CleanupResp.ok 0 0 ≠ CleanupResp.ok 1 1 := by
  decide

/-! ## Lemmas about the mojibake star scan -/

theorem takeWhile_replicate_append (k : Nat) (post : List Char)
    (hpost : post.head? ≠ some mojiEllipsis) :
    (List.replicate k mojiEllipsis ++ post).takeWhile (· = mojiEllipsis) =
      List.replicate k mojiEllipsis := by
  induction k with
  | zero =>
    simp only [List.replicate, List.nil_append]
    cases post with
    | nil => rfl
    | cons c t =>
      have hc : ¬ (c = mojiEllipsis) := by
        intro h
        exact hpost (by simp [h])
      simp [List.takeWhile_cons, hc]
  | succ n ih =>
    simp [List.replicate_succ, List.takeWhile_cons, ih]

theorem starMatchLen_cons_ne (c : Char) (cs : List Char) (hc : ¬ c = mojiHatA) :
    starMatchLen (c :: cs) = starMatchLen cs := by
  cases cs with
  | nil => simp [starMatchLen, hc]
  | cons b rest => simp [starMatchLen, hc]

theorem starMatchLen_mojibake : ∀ (pre : List Char) (k : Nat) (post : List Char),
    1 ≤ k → (∀ c ∈ pre, c ≠ mojiHatA) → post.head? ≠ some mojiEllipsis →
    starMatchLen (pre ++ mojiHatA :: mojiTilde :: (List.replicate k mojiEllipsis ++ post)) =
      some (2 + k) := by
  intro pre
  induction pre with
  | nil =>
    intro k post hk hpre hpost
    rw [List.nil_append]
    simp [starMatchLen, takeWhile_replicate_append k post hpost, hk]
  | cons c pre' ih =>
    intro k post hk hpre hpost
    rw [List.cons_append, starMatchLen_cons_ne c _ (hpre c (by simp))]
    exact ih k post hk (fun x hx => hpre x (by simp [hx])) hpost

/-- C10 (amended): the rating scan is indeed uncapped and positional, but
over the literal mojibake characters `â` `˜` followed by a run of `…` (the
mis-encoded star glyph), not over `★`: if the first occurrence of `â` in
the content opens the sequence `â ˜ …·k` with `k ≥ 1`, the extracted rating
is `2 + k` — unbounded, and found at any position. -/
theorem star_mojibake_run_uncapped_positional (pre : List Char) (k : Nat)
    (post : List Char) (hk : 1 ≤ k) (hpre : ∀ c ∈ pre, c ≠ mojiHatA)
    (hpost : post.head? ≠ some mojiEllipsis) :
    letterboxdRatingOf
      (String.mk (pre ++ mojiHatA :: mojiTilde :: (List.replicate k mojiEllipsis ++ post))) =
      some (Dec.ofNat (2 + k)) := by
  unfold letterboxdRatingOf
  rw [show (String.mk (pre ++ mojiHatA :: mojiTilde :: (List.replicate k mojiEllipsis ++ post))).data
      = pre ++ mojiHatA :: mojiTilde :: (List.replicate k mojiEllipsis ++ post) from rfl]
  rw [starMatchLen_mojibake pre k post hk hpre hpost]
  rfl

/-- C10 (counterexample): a run of seven genuine `★` glyphs in the middle of
the content yields no rating at all, where the claim demands exactly 7. -/
theorem star_glyph_run_not_extracted :
    letterboxdRatingOf (String.mk ("ab".data ++ List.replicate 7 starGlyph ++ "cd".data)) = none ∧
    (none : Option Dec) ≠ some (Dec.ofNat 7) := by
  constructor
  · decide
  · decide

/-- C10 (witness): an interior mojibake run of seven `…` (nine matched
characters in total) rates 9 — beyond the 5-star cap. -/
theorem star_mojibake_run_uncapped_positional_witness :
    letterboxdRatingOf
      (String.mk ("xy".data ++ mojiHatA :: mojiTilde :: (List.replicate 7 mojiEllipsis ++ "z".data))) =
      some (Dec.ofNat 9) :=
  star_mojibake_run_uncapped_positional "xy".data 7 "z".data (by decide) (by decide) (by decide)

/-- With no truthy letterboxd id and a falsy title or year, both lookups are
skipped and the values go straight to INSERT. -/
theorem upsert_skips_lookup_and_inserts (env : Env) (db : DB) (d : MovieDraft)
    (hlb : d.externalIds.letterboxd_id = none)
    (htr : d.externalIds.trakt_id = none)
    (hty : truthyS d.title = false ∨ truthyI d.year = false)
    (htitle : d.title ≠ none) :
    upsertMovie env db d =
      (.ok (newMovieRow d (insertEnrichment env d) db.nextMovieId),
       { db with
         movies := db.movies ++ [newMovieRow d (insertEnrichment env d) db.nextMovieId]
         nextMovieId := db.nextMovieId + 1 }) := by
  have hlk : lookupExisting db d = none := by
    rcases hty with h | h <;> simp [lookupExisting, lookupByLb, hlb, h]
  unfold upsertMovie
  rw [hlk]
  show insertMovie db (newMovieRow d (insertEnrichment env d)) = _
  unfold insertMovie
  rw [if_neg (by simpa [newMovieRow] using htitle)]
  rw [if_neg (by simp [newMovieRow, hlb])]
  rw [if_neg (by simp [newMovieRow, htr])]

/-- C8 (amended): when the draft has no external ids at all and a non-null
title with a falsy title-or-year pair, movie resolution performs no lookup:
whatever rows the store already holds, each sequential delivery appends a
brand-new Movie row, and the two appended rows have distinct ids. -/
theorem yearless_draft_inserts_fresh_movie (env : Env) (db : DB) (d : MovieDraft)
    (hlb : d.externalIds.letterboxd_id = none)
    (htr : d.externalIds.trakt_id = none)
    (hty : truthyS d.title = false ∨ truthyI d.year = false)
    (htitle : d.title ≠ none) :
    ∃ m₁ db₁ m₂ db₂,
      upsertMovie env db d = (.ok m₁, db₁) ∧
      db₁.movies = db.movies ++ [m₁] ∧
      upsertMovie env db₁ d = (.ok m₂, db₂) ∧
      db₂.movies = db₁.movies ++ [m₂] ∧
      m₂.id ≠ m₁.id := by
  have h₁ := upsert_skips_lookup_and_inserts env db d hlb htr hty htitle
  have h₂ := upsert_skips_lookup_and_inserts env
    { db with
      movies := db.movies ++ [newMovieRow d (insertEnrichment env d) db.nextMovieId]
      nextMovieId := db.nextMovieId + 1 } d hlb htr hty htitle
  exact ⟨_, _, _, _, h₁, rfl, h₂, rfl, by simp [newMovieRow]⟩

/-- C8 (counterexample): a yearless Trakt draft carrying a trakt_id: the
first delivery inserts a Movie, but the second delivery hits the
`trakt_id` uniqueness constraint and fails — it neither resolves to the
existing Movie nor creates a distinct one. -/
theorem yearless_trakt_second_delivery_fails :
    (upsertMovie plainEnv {} solarisDraft).1 =
      .ok (newMovieRow solarisDraft {} 0) ∧
    (upsertMovie plainEnv (upsertMovie plainEnv {} solarisDraft).2 solarisDraft).1 =
      .error "duplicate key value violates unique constraint movies_trakt_id_key" ∧
    (upsertMovie plainEnv (upsertMovie plainEnv {} solarisDraft).2 solarisDraft).2.movies.length = 1 := by
  refine ⟨?_, ?_, ?_⟩ <;> decide

/-- C8 (witness): a generic yearless draft over the empty store. -/
theorem yearless_draft_inserts_fresh_movie_witness :
    ∃ m₁ db₁ m₂ db₂,
      upsertMovie plainEnv {} duneDraft = (.ok m₁, db₁) ∧
      db₁.movies = ({} : DB).movies ++ [m₁] ∧
      upsertMovie plainEnv db₁ duneDraft = (.ok m₂, db₂) ∧
      db₂.movies = db₁.movies ++ [m₂] ∧
      m₂.id ≠ m₁.id :=
  yearless_draft_inserts_fresh_movie plainEnv {} duneDraft rfl rfl (Or.inr rfl)
    (by decide)

/-- C9: when the lookup finds an existing Movie without a poster, the
enrichment returns a non-empty field map, and the subsequent UPDATE fails,
the error is swallowed: the unmodified existing row is returned and the
store is completely unchanged. -/
theorem failed_enrichment_update_swallowed (env : Env) (db : DB) (d : MovieDraft)
    (m : MovieRow)
    (hlk : lookupExisting db d = some m)
    (hp : truthyS m.poster_url = false)
    (hkey : env.tmdbKey = true)
    (ht : (enrichMovieWithTMDB env m.title m.year).isEmpty = false)
    (hup : env.updateOk m.id = false) :
    upsertMovie env db d = (.ok m, db) := by
  unfold upsertMovie
  rw [hlk]
  show existingBranch env db m = _
  unfold existingBranch
  rw [if_pos (by simp [hp, hkey])]
  rw [if_pos (by simp [ht])]
  have hupd : updateMovie env db m.id (enrichMovieWithTMDB env m.title m.year) =
      (.error "movies update failed", db) := by
    unfold updateMovie
    rw [if_pos (by simp [hup])]
  rw [hupd]

/-- C9 (witness): a poster-less stored movie, an enrichment that finds a
poster, and a store that refuses the UPDATE. -/
theorem failed_enrichment_update_swallowed_witness :
    upsertMovie posterEnv fooDb fooDraft = (.ok fooMovie, fooDb) :=
  failed_enrichment_update_swallowed posterEnv fooDb fooDraft fooMovie
    (by decide) rfl rfl (by decide) rfl

/-! ## Lemmas about the watch insert -/

theorem createMovieWatch_ok_state {env : Env} {db : DB} {mid : Nat}
    {fi : FeedItem} {d : MovieDraft} {w : WatchRow} {db₂ : DB}
    (h : createMovieWatch env db mid fi d = (.ok w, db₂)) :
    db₂.watches = db.watches ++ [w] ∧ db₂.movies = db.movies := by
  unfold createMovieWatch at h
  split at h
  · exact absurd h (by simp)
  · split at h
    · exact absurd h (by simp)
    · simp only [Prod.mk.injEq, Except.ok.injEq] at h
      obtain ⟨hw, hdb⟩ := h
      rw [← hdb, ← hw]
      exact ⟨rfl, rfl⟩

theorem createMovieWatch_notOk_state {env : Env} {db : DB} {mid : Nat}
    {fi : FeedItem} {d : MovieDraft}
    (h : exOk (createMovieWatch env db mid fi d).1 = false) :
    (createMovieWatch env db mid fi d).2 = db := by
  unfold createMovieWatch at h ⊢
  by_cases hfk : (db.movies.any fun m => m.id = mid) = true
  · rw [if_neg (not_not_intro hfk)] at h ⊢
    rcases hrs : ratingStored d.rating with e | pr
    · rfl
    · rw [hrs] at h
      exact absurd h (by simp [exOk])
  · rw [if_pos hfk]

/-- Lemma: `Dec.pgRound1` always produces a scale-1 decimal. -/
theorem pgRound1_e (r : Dec) : (Dec.pgRound1 r).e = 1 := by
  unfold Dec.pgRound1
  cases r.e <;> rfl

/-- A rounded value overflowing `DECIMAL(3,1)` is in particular above 10. -/
theorem overflow_gt_ten (r : Dec) (h : 1000 ≤ (Dec.pgRound1 r).m) :
    Dec.lt (Dec.ofNat 10) (Dec.pgRound1 r) = true := by
  have he := pgRound1_e r
  rcases hq : Dec.pgRound1 r with ⟨m', e'⟩
  rw [hq] at he h
  simp only at he h
  subst he
  simp only [Dec.lt, Dec.ofNat, decide_eq_true_eq]
  simpa using by omega

/-- C3: when every metadata search call errors, returns a non-OK status or
returns zero results, (1) the enrichment function returns the empty field
map for every input — no exception escapes — and (2) a webhook delivery
whose draft finds no existing Movie still creates the Movie and the Watch,
and the success envelope carries `enriched: false`. -/
theorem enrichment_failure_absorbed (env : Env)
    (hfail : ∀ q y, env.searchResults q y = none ∨ env.searchResults q y = some []) :
    (∀ t y, enrichMovieWithTMDB env t y = {}) ∧
    (∀ (p : Payload) (fi : FeedItem) (d : MovieDraft) (db : DB) (m : MovieRow)
        (db₁ : DB) (w : WatchRow) (db₂ : DB),
      payloadFeedItem p = some fi →
      extractMovieData env fi = .ok d →
      lookupExisting db d = none →
      upsertMovie env db d = (.ok m, db₁) →
      createMovieWatch env db₁ m.id fi d = (.ok w, db₂) →
      handleEchoFeedWebhook env p db =
        (.ok ("Successfully processed movie: " ++ (m.title.getD "null")) false ⟨m, w⟩, db₂) ∧
      m ∈ db₂.movies ∧ db₂.watches = db.watches ++ [w]) := by
  have habs : ∀ t y, enrichMovieWithTMDB env t y = {} := by
    intro t y
    by_cases hk : env.tmdbKey = true
    · rcases hfail t (yearParam y) with h | h <;>
        simp [enrichMovieWithTMDB, searchTMDBMovie, hk, h]
    · simp [enrichMovieWithTMDB, searchTMDBMovie, hk]
  refine ⟨habs, ?_⟩
  intro p fi d db m db₁ w db₂ hpfi hext hlk hup hcw
  have hins : insertEnrichment env d = {} := by
    unfold insertEnrichment
    split
    · exact habs d.title d.year
    · rfl
  have hpm : m.poster_url = none := by
    have hup' : insertMovie db (newMovieRow d (insertEnrichment env d)) = (.ok m, db₁) := by
      unfold upsertMovie at hup
      rw [hlk] at hup
      exact hup
    unfold insertMovie at hup'
    split at hup'
    · exact absurd hup' (by simp)
    · split at hup'
      · exact absurd hup' (by simp)
      · split at hup'
        · exact absurd hup' (by simp)
        · simp only [Prod.mk.injEq, Except.ok.injEq] at hup'
          rw [← hup'.1, hins]
          rfl
  have hproc : processMovieFeedItem env fi db = (.ok ⟨m, w⟩, db₂) := by
    simp only [processMovieFeedItem, hext, hup, hcw]
  obtain ⟨hw2, hmv2⟩ := createMovieWatch_ok_state hcw
  have h₁w : db₁.watches = db.watches := by
    have := upsert_watches env db d
    rw [hup] at this
    exact this
  refine ⟨?_, ?_, ?_⟩
  · simp only [handleEchoFeedWebhook, hpfi, hproc]
    simp [truthyS, hpm]
  · rw [hmv2]
    exact upsert_ok_mem hup
  · rw [hw2, h₁w]

/-- C3 (witness): a simulated always-failing metadata service, with the
Letterboxd scenario webhook over the empty store. -/
theorem enrichment_failure_absorbed_witness :
    enrichMovieWithTMDB failEnv (some "The Matrix") (some 1999) = {} ∧
    handleEchoFeedWebhook failEnv { lbItem with } {} =
      (.ok ("Successfully processed movie: " ++ (matrixMovie.title.getD "null")) false
        ⟨matrixMovie, matrixWatch⟩, matrixDb2) ∧
    matrixMovie ∈ matrixDb2.movies ∧
    matrixDb2.watches = ({} : DB).watches ++ [matrixWatch] := by
  have h := enrichment_failure_absorbed failEnv (fun q y => Or.inl rfl)
  have h2 := h.2 { lbItem with } lbItem matrixDraft {} matrixMovie matrixDb1
    matrixWatch matrixDb2 rfl (by decide) (by decide) (by decide) (by decide)
  exact ⟨h.1 (some "The Matrix") (some 1999), h2.1, h2.2.1, h2.2.2⟩

/-- C4 (amended): with the rating cast to `DECIMAL(3,1)` *before* the CHECK
constraint runs, a Watch insert with a non-null rating fails exactly when
the rounded value lies outside [0, 10]; a failed insert leaves the store
untouched; and when the failure happens inside a webhook delivery that has
already created the Movie, the caller receives a hard error while the Movie
row stays persisted and no Watch row is added. -/
theorem watch_rating_bounds_rounded :
    (∀ (env : Env) (db : DB) (mid : Nat) (fi : FeedItem) (d : MovieDraft) (r : Dec),
      d.rating = some r →
      (db.movies.any fun mm => mm.id = mid) = true →
      ((exOk (createMovieWatch env db mid fi d).1 = false ↔
        (Dec.lt (Dec.pgRound1 r) (Dec.ofNat 0) = true ∨
         Dec.lt (Dec.ofNat 10) (Dec.pgRound1 r) = true)) ∧
       (exOk (createMovieWatch env db mid fi d).1 = false →
        (createMovieWatch env db mid fi d).2 = db))) ∧
    (∀ (env : Env) (p : Payload) (fi : FeedItem) (d : MovieDraft) (r : Dec)
        (db : DB) (m : MovieRow) (db₁ : DB),
      payloadFeedItem p = some fi →
      extractMovieData env fi = .ok d →
      d.rating = some r →
      Dec.lt (Dec.ofNat 10) (Dec.pgRound1 r) = true →
      upsertMovie env db d = (.ok m, db₁) →
      ∃ e, handleEchoFeedWebhook env p db = (.err e, db₁) ∧
        m ∈ db₁.movies ∧ db₁.watches = db.watches) := by
  constructor
  · intro env db mid fi d r hr hfk
    constructor
    · unfold createMovieWatch
      rw [if_neg (not_not_intro hfk), hr]
      simp only [ratingStored]
      by_cases hov : 1000 ≤ (Dec.pgRound1 r).m
      · rw [if_pos hov]
        exact iff_of_true (by simp [exOk]) (Or.inr (overflow_gt_ten r hov))
      · rw [if_neg hov]
        by_cases hchk : (Dec.lt (Dec.pgRound1 r) (Dec.ofNat 0) ||
            Dec.lt (Dec.ofNat 10) (Dec.pgRound1 r)) = true
        · rw [if_pos hchk]
          refine iff_of_true (by simp [exOk]) ?_
          rcases or2_true hchk with h | h
          · exact Or.inl h
          · exact Or.inr h
        · rw [if_neg hchk]
          refine iff_of_false (by simp [exOk]) ?_
          intro hcon
          apply hchk
          rcases hcon with h | h <;> simp [h]
    · intro hfail
      exact createMovieWatch_notOk_state hfail
  · intro env p fi d r db m db₁ hpfi hext hr hlt hup
    have hfk : (db₁.movies.any fun mm => mm.id = m.id) = true := by
      rw [List.any_eq_true]
      exact ⟨m, upsert_ok_mem hup, by simp⟩
    have hcwfail : ∃ e, createMovieWatch env db₁ m.id fi d = (.error e, db₁) := by
      unfold createMovieWatch
      rw [if_neg (not_not_intro hfk), hr]
      simp only [ratingStored]
      by_cases hov : 1000 ≤ (Dec.pgRound1 r).m
      · rw [if_pos hov]
        exact ⟨_, rfl⟩
      · rw [if_neg hov, if_pos (by simp [hlt])]
        exact ⟨_, rfl⟩
    obtain ⟨e, hcw⟩ := hcwfail
    have hproc : processMovieFeedItem env fi db = (.error e, db₁) := by
      simp only [processMovieFeedItem, hext, hup, hcw]
    refine ⟨e, ?_, upsert_ok_mem hup, ?_⟩
    · simp only [handleEchoFeedWebhook, hpfi, hproc]
    · have := upsert_watches env db d
      rw [hup] at this
      exact this

/-- C4 (counterexample): rating 10.04 — reachable from the Trakt content
"10.04/10" — lies strictly outside [0, 10], yet the insert SUCCEEDS: the
`DECIMAL(3,1)` cast rounds it to 10.0 before the CHECK constraint runs. -/
theorem watch_rating_out_of_range_insert_succeeds :
    traktRatingOf "10.04/10" = some ⟨1004, 2⟩ ∧
    Dec.lt (Dec.ofNat 10) ⟨1004, 2⟩ = true ∧
    exOk (createMovieWatch plainEnv cleanupDb 1 {} (rateDraft ⟨1004, 2⟩)).1 = true := by
  refine ⟨?_, ?_, ?_⟩ <;> decide

/-- C4 (witness): boundary inserts at exactly 0 and exactly 10 succeed, an
insert at 11 fails, and the end-to-end Trakt "11/10" delivery errors while
its freshly created Movie stays persisted with no Watch row. -/
theorem watch_rating_bounds_rounded_witness :
    exOk (createMovieWatch plainEnv cleanupDb 1 {} (rateDraft (Dec.ofNat 0))).1 = true ∧
    exOk (createMovieWatch plainEnv cleanupDb 1 {} (rateDraft (Dec.ofNat 10))).1 = true ∧
    exOk (createMovieWatch plainEnv cleanupDb 1 {} (rateDraft (Dec.ofNat 11))).1 = false ∧
    (∃ e, handleEchoFeedWebhook plainEnv { traktItem with } {} = (.err e, heatDb) ∧
      heatMovie ∈ heatDb.movies ∧ heatDb.watches = ({} : DB).watches) := by
  refine ⟨?_, ?_, ?_, ?_⟩
  · have h := (watch_rating_bounds_rounded.1 plainEnv cleanupDb 1 {}
      (rateDraft (Dec.ofNat 0)) (Dec.ofNat 0) rfl (by decide)).1
    cases hb : exOk (createMovieWatch plainEnv cleanupDb 1 {} (rateDraft (Dec.ofNat 0))).1
    · exact absurd (h.mp hb) (by decide)
    · rfl
  · have h := (watch_rating_bounds_rounded.1 plainEnv cleanupDb 1 {}
      (rateDraft (Dec.ofNat 10)) (Dec.ofNat 10) rfl (by decide)).1
    cases hb : exOk (createMovieWatch plainEnv cleanupDb 1 {} (rateDraft (Dec.ofNat 10))).1
    · exact absurd (h.mp hb) (by decide)
    · rfl
  · exact (watch_rating_bounds_rounded.1 plainEnv cleanupDb 1 {}
      (rateDraft (Dec.ofNat 11)) (Dec.ofNat 11) rfl (by decide)).1.mpr
      (Or.inr (by decide))
  · exact watch_rating_bounds_rounded.2 plainEnv { traktItem with } traktItem
      heatDraft (Dec.ofNat 11) {} heatMovie heatDb rfl (by decide) rfl
      (by decide) (by decide)

/-- C1 (counterexample): the resolver never looks up by trakt_id, so a
draft carrying (only) a trakt_id is not resolved idempotently: the first
call persists a Movie for that external id, but the second call fails with
the trakt_id uniqueness violation instead of returning the same Movie. -/
theorem upsert_trakt_id_not_idempotent :
    (upsertMovie plainEnv {} stalkerDraft).1 = .ok (newMovieRow stalkerDraft {} 0) ∧
    (upsertMovie plainEnv (upsertMovie plainEnv {} stalkerDraft).2 stalkerDraft).1 =
      .error "duplicate key value violates unique constraint movies_trakt_id_key" := by
  constructor
  · decide
  · decide

/-- C1 (witness): the idempotence theorem applied to the concrete Matrix
draft over the empty store. -/
theorem upsert_letterboxd_idempotent_witness :
    ∃ m₂, (upsertMovie plainEnv matrixDb1 matrixDraft).1 = .ok m₂ ∧
      m₂.id = matrixMovie.id ∧
      (upsertMovie plainEnv matrixDb1 matrixDraft).2.movies.length =
        matrixDb1.movies.length :=
  upsert_letterboxd_idempotent plainEnv {} matrixDraft "the-matrix" rfl
    (by decide) (by decide) matrixMovie matrixDb1 (by decide)

end Msbapi
